import Mathlib

/-!
Verification development for the audio-excerpt TCP server
(`server.py`, with `client.py` as the peer).

The server is shallowly embedded: the per-connection handler
`handle_client` becomes a pure function from the received byte chunk to
the action taken (close / reply / abort), with the external
collaborators of the Python code — `float()` parsing, `os.path.exists`,
`pydub.AudioSegment` probing and slicing, `json.dumps` — supplied as
fields of an environment record.  Seconds values parsed from the
command line are modelled as exact rationals; `pydub` durations are
natural numbers of milliseconds (`len(audio)` in pydub is an integer
millisecond count).  Rational arithmetic in the model is written with
`mkRat` and `Rat.floor` (kernel-reducible) and related to Mathlib's
field operations by equational lemmas below.
-/

/-! Section: Python string primitives -/

/-- The whitespace characters recognised by `str.strip` / `str.split`
(ASCII subset; the model does not cover exotic Unicode whitespace). -/
def pyIsSpace (c : Char) : Bool :=
  c = ' ' || c = '\t' || c = '\n' || c = '\r' || c = '\x0b' || c = '\x0c'

/-- Python `str.strip()` on a character list. -/
def pyStripList (l : List Char) : List Char :=
  ((l.dropWhile pyIsSpace).reverse.dropWhile pyIsSpace).reverse

/-- Python `str.strip()`. -/
def pyStrip (s : String) : String :=
  String.mk (pyStripList s.toList)

/-- Worker for `str.split()` with no separator: split on runs of
whitespace, discarding empty pieces.  `cur` holds the characters of the
token currently being read, in reverse order. -/
def pySplitAux : List Char → List Char → List (List Char)
  | [], cur => if cur.isEmpty then [] else [cur.reverse]
  | c :: rest, cur =>
    if pyIsSpace c then
      if cur.isEmpty then pySplitAux rest [] else cur.reverse :: pySplitAux rest []
    else
      pySplitAux rest (c :: cur)

/-- Python `str.split()` with no separator. -/
def pySplit (s : String) : List String :=
  (pySplitAux s.toList []).map String.mk

/-- Python `str.upper()` (ASCII letters; the command verbs compared
against are ASCII). -/
def pyUpper (s : String) : String :=
  String.mk (s.toList.map Char.toUpper)

/-- Python `str.lower()` (ASCII letters). -/
def pyLower (s : String) : String :=
  String.mk (s.toList.map Char.toLower)

/-! Section: UTF-8 encoding and decoding

`conn.recv` hands the handler raw bytes and `data.decode('utf-8')` can
raise `UnicodeDecodeError`; responses are produced with
`str.encode('utf-8')`.  Bytes are modelled as natural numbers. -/

/-- UTF-8 encoding of one character. -/
def utf8Char (c : Char) : List Nat :=
  let n := c.toNat
  if n < 128 then [n]
  else if n < 2048 then [192 + n / 64, 128 + n % 64]
  else if n < 65536 then [224 + n / 4096, 128 + n / 64 % 64, 128 + n % 64]
  else [240 + n / 262144, 128 + n / 4096 % 64, 128 + n / 64 % 64, 128 + n % 64]

/-- UTF-8 encoding of a string (Python `str.encode`). -/
def utf8 (s : String) : List Nat :=
  (s.toList.map utf8Char).flatten

/-- Is `b` a UTF-8 continuation byte (`10xxxxxx`)? -/
def contByte (b : Nat) : Bool := 128 ≤ b && b < 192

/-- Strict UTF-8 decoding of a byte list, as performed by Python
`bytes.decode('utf-8')`: rejects stray continuation bytes, overlong
encodings, surrogate code points and code points above `0x10FFFF`.
Returns `none` where Python raises `UnicodeDecodeError`. -/
def utf8Decode : List Nat → Option (List Char)
  | [] => some []
  | b :: rest =>
    if b < 128 then
      (utf8Decode rest).map (fun cs => Char.ofNat b :: cs)
    else if b < 194 then
      none
    else if b < 224 then
      match rest with
      | b1 :: rest2 =>
        if contByte b1 then
          (utf8Decode rest2).map (fun cs => Char.ofNat ((b - 192) * 64 + (b1 - 128)) :: cs)
        else none
      | _ => none
    else if b < 240 then
      match rest with
      | b1 :: b2 :: rest2 =>
        let cp := (b - 224) * 4096 + (b1 - 128) * 64 + (b2 - 128)
        if contByte b1 && contByte b2 && decide (2048 ≤ cp) &&
            !(decide (55296 ≤ cp) && decide (cp < 57344)) then
          (utf8Decode rest2).map (fun cs => Char.ofNat cp :: cs)
        else none
      | _ => none
    else if b < 245 then
      match rest with
      | b1 :: b2 :: b3 :: rest2 =>
        let cp := (b - 240) * 262144 + (b1 - 128) * 4096 + (b2 - 128) * 64 + (b3 - 128)
        if contByte b1 && contByte b2 && contByte b3 && decide (65536 ≤ cp) &&
            decide (cp < 1114112) then
          (utf8Decode rest2).map (fun cs => Char.ofNat cp :: cs)
        else none
      | _ => none
    else none

/-- Python `bytes.decode('utf-8')` producing a string. -/
def utf8DecodeStr (data : List Nat) : Option String :=
  (utf8Decode data).map String.mk

/-! Section: Numeric helpers

Seconds values are exact rationals.  To keep every definition
kernel-evaluable the model multiplies and divides through `mkRat`
rather than the (irreducible) field operations on `ℚ`; the bridge
lemmas `timesThousand_eq` and `msToSec_eq` relate them to `*` and `/`. -/

/-- Multiplication of a rational by 1000, via `mkRat`. -/
def timesThousand (q : ℚ) : ℚ := mkRat (q.num * 1000) q.den

/-- A millisecond count as a seconds value: `ms / 1000.0`. -/
def msToSec (d : Nat) : ℚ := mkRat d 1000

/-- Python `int()` applied to a rational: truncation toward zero. -/
def pyInt (q : ℚ) : ℤ :=
  if 0 ≤ q then q.floor else -(Rat.floor (-q))

/-- Python `round(ms / 1000.0, 2)` for a natural millisecond count,
returned as an integer count of centiseconds: divide by 10 and round to
the nearest integer, taking ties to the even neighbour (the model uses
exact decimal arithmetic; `round` on binary floats can differ on the
tie cases, which no theorem below touches). -/
def round2CentiOfMs (d : Nat) : Nat :=
  if d % 10 < 5 then d / 10
  else if 5 < d % 10 then d / 10 + 1
  else if d / 10 % 2 = 0 then d / 10 else d / 10 + 1

/-- Python `round(ms / 1000.0, 2)` as a rational number of seconds. -/
def round2MsToSec (d : Nat) : ℚ := mkRat (round2CentiOfMs d) 100

theorem timesThousand_eq (q : ℚ) : timesThousand q = q * 1000 := by
  rw [timesThousand, Rat.mkRat_eq_div]
  push_cast
  rw [mul_div_right_comm, Rat.num_div_den]

theorem msToSec_eq (d : Nat) : msToSec d = (d : ℚ) / 1000 := by
  rw [msToSec, Rat.mkRat_eq_div]
  norm_num

theorem pyInt_of_nonneg {q : ℚ} (h : 0 ≤ q) : pyInt q = ⌊q⌋ := by
  rw [pyInt, if_pos h, Rat.floor_def', Rat.floor_def]

/-! Section: Data model -/

/-- One catalog entry, as built by `load_audio_metadata`:
`{'filename': ..., 'duration_sec': ..., 'format': ...}`. -/
structure CatalogEntry where
  filename : String
  duration_sec : ℚ
  format : String
deriving DecidableEq

/-- The external collaborators consumed by one run of the server:
Python `float()` applied to a token (`none` models `ValueError`),
`os.path.exists` on the file inside the audio directory, probing a file
with `pydub.AudioSegment.from_file` (`some d` is `len(audio)`, the
duration in integer milliseconds; `none` models an exception), the
slice-export-read sequence of the success path (`none` models an
exception anywhere inside it), and `json.dumps` for the `LIST` reply.
`metadata` is the `metadata_list` the handler thread received. -/
structure Env where
  metadata : List CatalogEntry
  parseNum : String → Option ℚ
  fsExists : String → Bool
  probeMs : String → Option Nat
  sliceBytes : String → Int → Int → Option (List Nat)
  dumps : List CatalogEntry → String

/-- The distinct error branches of the `GET` handler, one per
`err_msg` assignment in `server.py`. -/
inductive ErrKind where
  | malformedGet
  | fileNotFound
  | badNumber
  | negativeTime
  | missingOnDisk
  | audioReadError
  | invalidRange
  | rangeExceeds
deriving DecidableEq

/-- Result of processing one `GET` command: success carries the
millisecond bounds passed to the audio slice together with the exported
bytes; `extractFail` is an exception inside the slice/export block
(after validation, so the millisecond bounds exist); `err` is a
validation failure. -/
inductive GetOutcome where
  | ok (startMs endMs : Int) (payload : List Nat)
  | extractFail (startMs endMs : Int) (msg : String)
  | err (k : ErrKind) (msg : String)
deriving DecidableEq

/-- A response written back to the client: `plain` is a bare
`conn.sendall(text.encode())` with no framing; `framed` is the
status-byte plus length-prefixed layout used for every `GET` outcome. -/
inductive Response where
  | plain (msg : String)
  | framed (ok : Bool) (payload : List Nat)
deriving DecidableEq

/-- What the handler does with one received chunk: `closed` models the
`if not data: break` path (peer closed), `reply` models sending a
response and looping, `aborted` models an exception escaping the loop
body into the connection-level `except`, which closes the socket
without any response. -/
inductive Step where
  | closed
  | reply (r : Response)
  | aborted
deriving DecidableEq

/-! Section: Error messages (from `server.py`) -/

/-- Message for an empty / whitespace-only request. -/
def err_empty : String := "Пустой запрос."

/-- Message for `LIST` with extra tokens. -/
def err_list_params : String := "Команда LIST не принимает параметры."

/-- Message for a `GET` line with the wrong token count. -/
def err_malformed_get : String :=
  "Неверный формат команды GET. Используйте: GET <имя_файла> <начало> <конец>"

/-- Message for a filename absent from the catalog. -/
def err_not_found (filename : String) : String :=
  "Файл \x27" ++ filename ++ "\x27 не найден."

/-- Message for non-numeric time tokens. -/
def err_bad_number : String := "Параметры времени должны быть числами."

/-- Message for negative time values. -/
def err_negative : String := "Временные параметры не могут быть отрицательными."

/-- Message for a cataloged file that is gone from the filesystem. -/
def err_missing_fs (filename : String) : String :=
  "Файл \x27" ++ filename ++ "\x27 не найден в файловой системе."

/-- Message prefix for a probe failure (`f"Ошибка чтения аудиофайла: {e}"`;
the interpolated exception text is outside the model). -/
def err_audio_read : String := "Ошибка чтения аудиофайла: "

/-- Message for `start_sec >= end_sec`. -/
def err_invalid_range : String := "Начальное время должно быть меньше конечного."

/-- Message for `end_sec` beyond the probed duration. -/
def err_range_exceeds (endSec durSec : ℚ) : String :=
  "Конечное время (" ++ toString endSec ++ " сек) превышает длительность файла (" ++
    toString durSec ++ " сек)."

/-- Message prefix for an exception in the slice/export block
(`f"Ошибка обработки аудио: {e}"`; the exception text is outside the
model). -/
def err_processing : String := "Ошибка обработки аудио: "

/-- Message for an unknown command verb. -/
def err_unknown (command : String) : String :=
  "Неизвестная команда: " ++ command

/-! Section: The GET pipeline (`server.py`, lines 107-271) -/

/-- Does `metadata_list` contain `filename`?
(`any(item['filename'] == filename for item in metadata_list)`). -/
def catalogHas (metadata : List CatalogEntry) (filename : String) : Bool :=
  metadata.any (fun item => item.filename = filename)

/-- The body of the `GET` branch once the token count is known to be
right: the chain of validation checks of `server.py` lines 124-219, in
source order, then the conversion to milliseconds and the
slice/export/send block of lines 221-271. -/
def get_request (env : Env) (filename startTok endTok : String) : GetOutcome :=
  if ¬ catalogHas env.metadata filename then
    .err .fileNotFound (err_not_found filename)
  else
    match env.parseNum startTok, env.parseNum endTok with
    | some start_sec, some end_sec =>
      if start_sec < 0 ∨ end_sec < 0 then
        .err .negativeTime err_negative
      else if ¬ env.fsExists filename then
        .err .missingOnDisk (err_missing_fs filename)
      else
        match env.probeMs filename with
        | none => .err .audioReadError err_audio_read
        | some durMs =>
          let file_duration_sec := msToSec durMs
          if start_sec ≥ end_sec then
            .err .invalidRange err_invalid_range
          else if end_sec > file_duration_sec then
            .err .rangeExceeds (err_range_exceeds end_sec file_duration_sec)
          else
            let start_ms := pyInt (timesThousand start_sec)
            let end_ms := pyInt (timesThousand end_sec)
            match env.sliceBytes filename start_ms end_ms with
            | none => .extractFail start_ms end_ms err_processing
            | some segment_data => .ok start_ms end_ms segment_data
    | _, _ => .err .badNumber err_bad_number

/-- The `GET` branch of the dispatcher: `server.py` checks
`len(parts) != 4` and otherwise uses `parts[1]`, `parts[2]`,
`parts[3]`. -/
def handle_get (env : Env) (parts : List String) : GetOutcome :=
  match parts with
  | [_, filename, startTok, endTok] => get_request env filename startTok endTok
  | _ => .err .malformedGet err_malformed_get

/-- How a `GET` outcome is written back: every branch sends
`status_byte + struct.pack('!I', len(payload)) + payload`. -/
def responseOfGet : GetOutcome → Response
  | .ok _ _ payload => .framed true payload
  | .extractFail _ _ msg => .framed false (utf8 msg)
  | .err _ msg => .framed false (utf8 msg)

/-- Handling of one decoded command line (the loop body of
`handle_client` from `command_line = data.decode('utf-8').strip()`
on): strip, split, dispatch on the upper-cased verb. -/
def handle_command (env : Env) (raw : String) : Response :=
  let parts := pySplit (pyStrip raw)
  match parts with
  | [] => .plain err_empty
  | p0 :: _ =>
    let command := pyUpper p0
    if command = "LIST" then
      if parts.length ≠ 1 then .plain err_list_params
      else .plain (env.dumps env.metadata)
    else if command = "GET" then
      responseOfGet (handle_get env parts)
    else
      .plain (err_unknown command)

/-- One iteration of the `handle_client` read loop, given the chunk
returned by `conn.recv(1024)`.  An empty chunk breaks the loop
(`closed`); a chunk that is not valid UTF-8 makes `data.decode`
raise, and — the `while` body having no per-command `except` — the
exception lands in the connection-level handler, which closes the
socket (`aborted`); otherwise the command is handled and a response is
sent (`reply`). -/
def handle_client_step (env : Env) (data : List Nat) : Step :=
  if data = [] then .closed
  else
    match utf8DecodeStr data with
    | none => .aborted
    | some command_line => .reply (handle_command env command_line)

/-! Section: Wire encoding of responses -/

/-- Big-endian 4-byte encoding of `struct.pack('!I', n)` (the Python
call raises for `n ≥ 2^32`; payloads that large do not occur and the
framing theorems carry the bound as a hypothesis). -/
def beBytes4 (n : Nat) : List Nat :=
  [n / 16777216 % 256, n / 65536 % 256, n / 256 % 256, n % 256]

/-- The client-side reading of a 4-byte big-endian length field. -/
def decodeBE4 (bytes : List Nat) : Nat :=
  match bytes with
  | [a, b, c, d] => ((a * 256 + b) * 256 + c) * 256 + d
  | _ => 0

/-- Byte layout of a response on the wire: a `plain` response is the
bare UTF-8 text; a `framed` response is one status byte (`'1'` = 49 on
success, `'0'` = 48 on failure), the 4-byte big-endian payload length,
then the payload. -/
def encodeResponse : Response → List Nat
  | .plain msg => utf8 msg
  | .framed ok payload =>
    (if ok then 49 else 48) :: (beBytes4 payload.length ++ payload)

/-- The millisecond pair passed to the extraction step
(`audio[start_ms:end_ms]`), when the request got that far. -/
def extractionArgs : GetOutcome → Option (Int × Int)
  | .ok s e _ => some (s, e)
  | .extractFail s e _ => some (s, e)
  | .err _ _ => none

/-- The validated-range invariant claimed by the specification for the
millisecond values handed to the extraction step. -/
def rangeInvariant (startMs endMs : Int) (durMs : Nat) : Prop :=
  0 ≤ startMs ∧ startMs < endMs ∧ endMs ≤ (durMs : Int)

/-! Section: Catalog construction (`load_audio_metadata`, `server.py` lines 28-64) -/

/-- The supported audio extensions (`SUPPORTED_EXTENSIONS`). -/
def SUPPORTED_EXTENSIONS : List String := [".wav", ".mp3", ".ogg", ".flac"]

/-- The scan filter `filename.lower().endswith(SUPPORTED_EXTENSIONS)`. -/
def hasSupportedExt (filename : String) : Bool :=
  SUPPORTED_EXTENSIONS.any (fun e => e.toList.isSuffixOf (pyLower filename).toList)

/-- The extension without its dot,
`os.path.splitext(filename)[1][1:]`: the part after the last dot,
provided some earlier character is not itself a dot (so names made of
leading dots have no extension), else empty. -/
def extNoDot (filename : String) : String :=
  let l := filename.toList
  let rtail := l.reverse.takeWhile (fun c => c ≠ '.')
  if rtail.length = l.length then String.mk []
  else if (l.take (l.length - rtail.length - 1)).any (fun c => c ≠ '.') then
    String.mk rtail.reverse
  else String.mk []

/-- The catalog entry recorded for a successfully probed file:
`duration_sec = round(len(audio) / 1000.0, 2)` and the format is the
extension without its dot. -/
def mkEntry (filename : String) (durMs : Nat) : CatalogEntry :=
  { filename := filename, duration_sec := round2MsToSec durMs, format := extNoDot filename }

/-- The directory scan of `load_audio_metadata`: when the directory is
missing it is created (empty, so the scan yields nothing) — and when
even the creation fails the function returns the empty list; otherwise
every listed file with a supported extension is probed, a successful
probe appends an entry, and a probe exception skips just that file.
(The JSON snapshot written afterwards is an external artifact and not
modelled.) -/
def load_audio_metadata (dirExists : Bool) (files : List String)
    (probeMs : String → Option Nat) : List CatalogEntry :=
  if ¬ dirExists then []
  else
    files.filterMap (fun f =>
      if hasSupportedExt f then (probeMs f).map (mkEntry f) else none)

/-! Section: Concrete environments for the closed theorems -/

/-- A small table standing in for Python `float()` on the tokens the
closed theorems use. -/
def cNumTable : List (String × ℚ) :=
  [(("0"), mkRat 0 1), (("1"), mkRat 1 1), (("2"), mkRat 2 1),
   (("0.0001"), mkRat 1 10000), (("0.0002"), mkRat 1 5000),
   (("10.56"), mkRat 1056 100)]

/-- An environment with one cataloged 10-second file `a.wav` that is
present on disk, probes to 10000 ms, and slices successfully. -/
def cenv1 : Env :=
  { metadata := [{ filename := "a.wav", duration_sec := mkRat 10 1, format := "wav" }]
    parseNum := fun t => cNumTable.lookup t
    fsExists := fun _ => true
    probeMs := fun _ => some 10000
    sliceBytes := fun _ _ _ => some [7, 8]
    dumps := fun _ => "[]" }

/-- The probe used for the catalog/validator mismatch scenario:
`a.wav` has a true duration of 10556 ms (10.556 s), which `round(_, 2)`
displays as 10.56 s. -/
def cprobe9 (_f : String) : Option Nat := some 10556

/-- Environment whose catalog was built by `load_audio_metadata` over
the same probe the `GET` handler re-runs. -/
def cenv9 : Env :=
  { metadata := load_audio_metadata true (["a.wav"]) cprobe9
    parseNum := fun t => cNumTable.lookup t
    fsExists := fun _ => true
    probeMs := cprobe9
    sliceBytes := fun _ _ _ => some [7, 8]
    dumps := fun _ => "[]" }

/-! Section: Theorems -/

theorem get_request_extraction (env : Env) (filename startTok endTok : String)
    (startMs endMs : Int)
    (h : extractionArgs (get_request env filename startTok endTok) = some (startMs, endMs)) :
    ∃ s e durMs, env.parseNum startTok = some s ∧ env.parseNum endTok = some e ∧
      env.probeMs filename = some durMs ∧
      ¬(s < 0 ∨ e < 0) ∧ ¬(s ≥ e) ∧ ¬(e > msToSec durMs) ∧
      startMs = pyInt (timesThousand s) ∧ endMs = pyInt (timesThousand e) := by
  by_cases hc : catalogHas env.metadata filename
  · rcases hs : env.parseNum startTok with _ | s
    · simp [get_request, hc, hs, extractionArgs] at h
    · rcases he : env.parseNum endTok with _ | e
      · simp [get_request, hc, hs, he, extractionArgs] at h
      · by_cases hneg : s < 0 ∨ e < 0
        · simp [get_request, hc, hs, he, hneg, extractionArgs] at h
        · by_cases hfs : env.fsExists filename
          · rcases hp : env.probeMs filename with _ | durMs
            · simp [get_request, hc, hs, he, hneg, hfs, hp, extractionArgs] at h
            · by_cases hse : s ≥ e
              · simp [get_request, hc, hs, he, hneg, hfs, hp, hse, extractionArgs] at h
              · by_cases hed : e > msToSec durMs
                · simp [get_request, hc, hs, he, hneg, hfs, hp, hse, hed, extractionArgs] at h
                · refine ⟨s, e, durMs, rfl, rfl, rfl, hneg, hse, hed, ?_, ?_⟩
                  · rcases hsl : env.sliceBytes filename (pyInt (timesThousand s))
                        (pyInt (timesThousand e)) with _ | bytes
                    · simp [get_request, hc, hs, he, hneg, hfs, hp, hse, hed, hsl,
                        extractionArgs] at h
                      exact h.1.symm
                    · simp [get_request, hc, hs, he, hneg, hfs, hp, hse, hed, hsl,
                        extractionArgs] at h
                      exact h.1.symm
                  · rcases hsl : env.sliceBytes filename (pyInt (timesThousand s))
                        (pyInt (timesThousand e)) with _ | bytes
                    · simp [get_request, hc, hs, he, hneg, hfs, hp, hse, hed, hsl,
                        extractionArgs] at h
                      exact h.2.symm
                    · simp [get_request, hc, hs, he, hneg, hfs, hp, hse, hed, hsl,
                        extractionArgs] at h
                      exact h.2.symm
          · simp [get_request, hc, hs, he, hneg, hfs, extractionArgs] at h
  · simp [get_request, hc, extractionArgs] at h

/-- C1 (amended): for every GET request whose validation passes, the
millisecond values handed to the extraction step satisfy
`0 ≤ start_ms ≤ end_ms ≤ file_duration_ms`; the strict inequality
`start_ms < end_ms` claimed by the specification is what truncation can
break (see the counterexample). -/
theorem C1_range_invariant (env : Env) (filename startTok endTok : String)
    (startMs endMs : Int) (durMs : Nat)
    (hargs : extractionArgs (get_request env filename startTok endTok) = some (startMs, endMs))
    (hdur : env.probeMs filename = some durMs) :
    0 ≤ startMs ∧ startMs ≤ endMs ∧ endMs ≤ (durMs : Int) := by
  obtain ⟨s, e, d, hs, he, hp, hneg, hse, hed, hst, hen⟩ :=
    get_request_extraction env filename startTok endTok startMs endMs hargs
  have hd : d = durMs := by
    rw [hdur] at hp
    exact (Option.some.inj hp).symm
  subst hd
  push_neg at hneg
  have h0s : (0:ℚ) ≤ s := hneg.1
  have hlt : s < e := not_le.mp hse
  have hle : e ≤ msToSec d := not_lt.mp hed
  rw [msToSec_eq] at hle
  have hs1000 : (0:ℚ) ≤ s * 1000 := by positivity
  have he1000 : s * 1000 ≤ e * 1000 :=
    mul_le_mul_of_nonneg_right hlt.le (by norm_num)
  have hed1000 : e * 1000 ≤ (d : ℚ) := (le_div_iff₀ (by norm_num)).mp hle
  rw [hst, hen, timesThousand_eq, timesThousand_eq, pyInt_of_nonneg hs1000,
    pyInt_of_nonneg (le_trans hs1000 he1000)]
  refine ⟨Int.floor_nonneg.mpr hs1000, Int.floor_le_floor he1000, ?_⟩
  calc ⌊e * 1000⌋ ≤ ⌊(d : ℚ)⌋ := Int.floor_le_floor hed1000
    _ = (d : Int) := Int.floor_natCast d

/-- C1 (counterexample): `GET a.wav 0.0001 0.0002` passes every
validation check against a 10000 ms file, yet both bounds truncate to
`start_ms = end_ms = 0`, so the claimed invariant
`0 ≤ start_ms < end_ms ≤ file_duration_ms` fails at the extraction
call. -/
theorem C1_counterexample :
    extractionArgs (get_request cenv1 ("a.wav") ("0.0001") ("0.0002")) = some (0, 0) ∧
    ¬ rangeInvariant 0 0 10000 := by
  constructor
  · decide
  · simp [rangeInvariant]

theorem C1_witness :
    (0:ℤ) ≤ 1000 ∧ (1000:ℤ) ≤ 2000 ∧ (2000:ℤ) ≤ ((10000:ℕ) : ℤ) :=
  C1_range_invariant cenv1 ("a.wav") ("1") ("2") 1000 2000 10000 (by decide) rfl

/-- C2 (amended): once the received chunk decodes as UTF-8, every error
in handling that command is turned into a response and the read loop
continues (`handle_command` is total, so validation and extraction
failures all land in a `reply`); but a chunk that fails UTF-8 decoding
raises outside any per-command handler and the connection is closed
without a response. -/
theorem C2_per_command_recovery (env : Env) (data : List Nat) (hne : data ≠ []) :
    (∃ line, utf8DecodeStr data = some line ∧
      handle_client_step env data = .reply (handle_command env line)) ∨
    (utf8DecodeStr data = none ∧ handle_client_step env data = .aborted) := by
  rcases hdec : utf8DecodeStr data with _ | line
  · right
    refine ⟨rfl, ?_⟩
    rw [handle_client_step, if_neg hne]
    rw [show utf8DecodeStr data = none from hdec]
  · left
    refine ⟨line, rfl, ?_⟩
    rw [handle_client_step, if_neg hne]
    rw [show utf8DecodeStr data = some line from hdec]

theorem C2_witness :
    (∃ line, utf8DecodeStr [70, 79, 79] = some line ∧
      handle_client_step cenv1 [70, 79, 79] = .reply (handle_command cenv1 line)) ∨
    (utf8DecodeStr [70, 79, 79] = none ∧ handle_client_step cenv1 [70, 79, 79] = .aborted) :=
  C2_per_command_recovery cenv1 [70, 79, 79] (by decide)

/-- C2 (counterexample): the chunk `b'\xff'` is non-empty, so the peer
did not close, and the transport delivered it intact; yet
`data.decode('utf-8')` raises, the exception escapes the loop body —
which has no per-command handler — and the connection-level `except`
closes the socket without sending any error response. -/
theorem C2_counterexample :
    handle_client_step cenv1 [255] = .aborted ∧ ([255] : List Nat) ≠ [] := by
  constructor
  · decide
  · decide

/-- C10: a chunk that is non-empty but all whitespace is not a peer
disconnect: the handler answers with the unframed plain-text empty
request message and keeps looping. -/
theorem C10_whitespace_only (env : Env) (data : List Nat) (line : String)
    (hne : data ≠ []) (hdec : utf8DecodeStr data = some line)
    (hws : line.toList.all pyIsSpace = true) :
    handle_client_step env data = .reply (.plain err_empty) := by
  rw [handle_client_step, if_neg hne, hdec]
  have hdrop : line.toList.dropWhile pyIsSpace = [] :=
    List.dropWhile_eq_nil_iff.mpr (fun x hx => List.all_eq_true.mp hws x hx)
  have hstrip : pyStripList line.toList = [] := by
    rw [pyStripList, hdrop]
    rfl
  have hemp : pySplit (pyStrip line) = [] := by
    rw [pySplit, pyStrip, hstrip]
    rfl
  simp only [handle_command, hemp]

theorem C10_witness :
    handle_client_step cenv1 [32, 9] = .reply (.plain err_empty) :=
  C10_whitespace_only cenv1 [32, 9] (" \t") (by decide) (by decide) (by decide)

/-- Is a response a bare (unframed) plain-text one? -/
def isPlainResp : Response → Bool
  | .plain _ => true
  | .framed _ _ => false

theorem handle_get_wrong_arity (env : Env) (parts : List String)
    (h : parts.length ≠ 4) :
    handle_get env parts = .err .malformedGet err_malformed_get := by
  rcases parts with _ | ⟨a, _ | ⟨b, _ | ⟨c, _ | ⟨d, _ | ⟨e, t⟩⟩⟩⟩⟩
  · rfl
  · rfl
  · rfl
  · rfl
  · exact absurd rfl h
  · rfl

theorem handle_command_unknown (env : Env) (raw p0 : String) (ps : List String)
    (hparts : pySplit (pyStrip raw) = p0 :: ps)
    (hl : pyUpper p0 ≠ "LIST") (hg : pyUpper p0 ≠ "GET") :
    handle_command env raw = .plain (err_unknown (pyUpper p0)) := by
  simp only [handle_command, hparts]
  rw [if_neg hl, if_neg hg]

theorem handle_command_get (env : Env) (raw p0 : String) (ps : List String)
    (hparts : pySplit (pyStrip raw) = p0 :: ps) (hg : pyUpper p0 = "GET") :
    handle_command env raw = responseOfGet (handle_get env (p0 :: ps)) := by
  simp only [handle_command, hparts, hg]
  rfl

/-- C3 (amended): an unknown verb (and, per `C10_whitespace_only`, an
empty line) is answered with an unframed plain response, and no
received chunk that decodes closes the connection; but a `GET` line
with the wrong token count is answered with a *framed* failure response
(status `'0'` plus length prefix), not a plain one. -/
theorem C3_unknown_vs_malformed (env : Env) :
    (∀ raw p0 ps, pySplit (pyStrip raw) = p0 :: ps → pyUpper p0 ≠ "LIST" →
      pyUpper p0 ≠ "GET" →
      handle_command env raw = .plain (err_unknown (pyUpper p0))) ∧
    (∀ raw p0 ps, pySplit (pyStrip raw) = p0 :: ps → pyUpper p0 = "GET" →
      (p0 :: ps).length ≠ 4 →
      handle_command env raw = .framed false (utf8 err_malformed_get)) ∧
    (∀ data line, data ≠ [] → utf8DecodeStr data = some line →
      handle_client_step env data = .reply (handle_command env line)) := by
  refine ⟨?_, ?_, ?_⟩
  · intro raw p0 ps hparts hl hg
    exact handle_command_unknown env raw p0 ps hparts hl hg
  · intro raw p0 ps hparts hg hlen
    rw [handle_command_get env raw p0 ps hparts hg,
      handle_get_wrong_arity env (p0 :: ps) hlen]
    rfl
  · intro data line hne hdec
    rw [handle_client_step, if_neg hne, hdec]

/-- C3 (counterexample): the malformed line `GET a.wav 0` (wrong token
count for `GET`) is answered with a framed failure response, not with
the unframed plain response the claim requires. -/
theorem C3_counterexample :
    handle_command cenv1 ("GET a.wav 0") = .framed false (utf8 err_malformed_get) ∧
    isPlainResp (handle_command cenv1 ("GET a.wav 0")) = false := by
  constructor
  · decide
  · decide

theorem C3_witness :
    handle_command cenv1 ("FOO") = .plain (err_unknown (pyUpper ("FOO"))) ∧
    handle_command cenv1 ("GET a.wav 0 1 2") = .framed false (utf8 err_malformed_get) ∧
    handle_client_step cenv1 [70, 79, 79] = .reply (handle_command cenv1 ("FOO")) :=
  ⟨(C3_unknown_vs_malformed cenv1).1 ("FOO") ("FOO") [] (by decide) (by decide) (by decide),
   (C3_unknown_vs_malformed cenv1).2.1 ("GET a.wav 0 1 2") ("GET")
     ["a.wav", "0", "1", "2"] (by decide) (by decide) (by decide),
   (C3_unknown_vs_malformed cenv1).2.2 [70, 79, 79] ("FOO") (by decide) (by decide)⟩

/-! Section: Float-level time values (NaN semantics)

Python `float()` also accepts `nan` (and infinities), and every
comparison involving a NaN is false, so `start_sec >= end_sec` at line
199 is not the negation of `start_sec < end_sec` on the program's
values.  The check-order claim needs this: a `PyFloat` is a NaN or a
finite value modelled as an exact rational (infinities, which do
respect the order, stay outside the model), and the `GET` pipeline is
translated again over it, with the time parser passed separately so
the theorems can quantify over NaN-producing parses. -/

/-- A Python float as produced by `float()` on a time token. -/
inductive PyFloat where
  | nan
  | fin (q : ℚ)
deriving DecidableEq

/-- Python `<` on floats: false whenever a NaN is involved. -/
def pyLtF : PyFloat → PyFloat → Bool
  | .fin a, .fin b => a < b
  | _, _ => false

/-- Python `>=` on floats: false whenever a NaN is involved. -/
def pyGeF : PyFloat → PyFloat → Bool
  | .fin a, .fin b => b ≤ a
  | _, _ => false

/-- Python `>` on floats: false whenever a NaN is involved. -/
def pyGtF : PyFloat → PyFloat → Bool
  | .fin a, .fin b => b < a
  | _, _ => false

/-- Python `<=` on floats: false whenever a NaN is involved. -/
def pyLeF : PyFloat → PyFloat → Bool
  | .fin a, .fin b => a ≤ b
  | _, _ => false

/-- Python `int(x * 1000)` on a float time value: raises `ValueError`
on NaN (`none`, message "cannot convert float NaN to integer"),
truncates toward zero otherwise. -/
def pyIntMsF : PyFloat → Option Int
  | .nan => none
  | .fin q => some (pyInt (timesThousand q))

/-- Rendering of a float time value inside an error message. -/
def pyFloatStr : PyFloat → String
  | .nan => "nan"
  | .fin q => toString q

/-- The range-exceeds message over a float end time. -/
def err_range_exceeds_f (endSec : PyFloat) (durSec : ℚ) : String :=
  "Конечное время (" ++ pyFloatStr endSec ++ " сек) превышает длительность файла (" ++
    toString durSec ++ " сек)."

/-- Result of one float-level `GET` command: `extractFail` is any
exception inside the `try` of lines 221-263 — the `int()` conversion
raising on a NaN included — all reported with the same
processing-error text. -/
inductive FOutcome where
  | ok (startMs endMs : Int) (payload : List Nat)
  | extractFail (msg : String)
  | err (k : ErrKind) (msg : String)
deriving DecidableEq

/-- The `GET` body over float-level time values, translated from
`server.py` lines 124-271 with Python's float comparisons: a NaN time
token passes every comparison-based check (each comparison with a NaN
is false) and first fails at `int(start_sec * 1000)` inside the
extraction `try`, which reports the generic processing error. -/
def get_request_float (env : Env) (parseF : String → Option PyFloat)
    (filename startTok endTok : String) : FOutcome :=
  if ¬ catalogHas env.metadata filename then
    .err .fileNotFound (err_not_found filename)
  else
    match parseF startTok, parseF endTok with
    | some start_sec, some end_sec =>
      if pyLtF start_sec (.fin 0) || pyLtF end_sec (.fin 0) then
        .err .negativeTime err_negative
      else if ¬ env.fsExists filename then
        .err .missingOnDisk (err_missing_fs filename)
      else
        match env.probeMs filename with
        | none => .err .audioReadError err_audio_read
        | some durMs =>
          if pyGeF start_sec end_sec then
            .err .invalidRange err_invalid_range
          else if pyGtF end_sec (.fin (msToSec durMs)) then
            .err .rangeExceeds (err_range_exceeds_f end_sec (msToSec durMs))
          else
            match pyIntMsF start_sec, pyIntMsF end_sec with
            | some start_ms, some end_ms =>
              match env.sliceBytes filename start_ms end_ms with
              | none => .extractFail err_processing
              | some segment_data => .ok start_ms end_ms segment_data
            | _, _ => .extractFail err_processing
    | _, _ => .err .badNumber err_bad_number

/-- The `GET` branch of the dispatcher over float-level values. -/
def handle_get_float (env : Env) (parseF : String → Option PyFloat)
    (parts : List String) : FOutcome :=
  match parts with
  | [_, filename, startTok, endTok] => get_request_float env parseF filename startTok endTok
  | _ => .err .malformedGet err_malformed_get

/-- The validation pipeline exactly as §4.3 of the specification
orders it, over float-level values (this definition follows the
specification's wording, to be compared with `handle_get_float`, which
follows the code): (1) token count, (2) filename in the catalog, (3)
time tokens parse and are non-negative, (4) file exists on disk, (5)
the audio engine opens the file and reports a duration, (6)
`start < end` strictly, (7) `end ≤ duration`; the first failing check
gives the rejection category, and `none` means every check passed. -/
def specValidateF (env : Env) (parseF : String → Option PyFloat)
    (parts : List String) : Option ErrKind :=
  if parts.length ≠ 4 then some .malformedGet
  else if ¬ catalogHas env.metadata (parts[1]!) then some .fileNotFound
  else
    match parseF (parts[2]!), parseF (parts[3]!) with
    | some s, some e =>
      if pyLtF s (.fin 0) || pyLtF e (.fin 0) then some .negativeTime
      else if ¬ env.fsExists (parts[1]!) then some .missingOnDisk
      else
        match env.probeMs (parts[1]!) with
        | none => some .audioReadError
        | some durMs =>
          if ¬ pyLtF s e then some .invalidRange
          else if ¬ pyLeF e (.fin (msToSec durMs)) then some .rangeExceeds
          else none
    | _, _ => some .badNumber

/-- The rejection category of a float-level `GET` outcome (`none`
when every check passed and the extraction block was entered). -/
def errKindOfF : FOutcome → Option ErrKind
  | .err k _ => some k
  | .ok _ _ _ => none
  | .extractFail _ => none

theorem handle_get_float_order (env : Env) (parseF : String → Option PyFloat)
    (parts : List String) (hfin : ∀ t, parseF t ≠ some PyFloat.nan) :
    errKindOfF (handle_get_float env parseF parts) = specValidateF env parseF parts := by
  rcases parts with _ | ⟨a, _ | ⟨b, _ | ⟨c, _ | ⟨d, _ | ⟨e, t⟩⟩⟩⟩⟩
  · rfl
  · rfl
  · rfl
  · rfl
  · -- exactly four tokens
    have h1 : ([a, b, c, d] : List String)[1]! = b := rfl
    have h2 : ([a, b, c, d] : List String)[2]! = c := rfl
    have h3 : ([a, b, c, d] : List String)[3]! = d := rfl
    have hlen : ¬ (([a, b, c, d] : List String).length ≠ 4) := by simp
    have hget : handle_get_float env parseF [a, b, c, d] =
        get_request_float env parseF b c d := rfl
    rw [hget]
    simp only [specValidateF, h1, h2, h3, if_neg hlen]
    by_cases hc : catalogHas env.metadata b
    · rcases hs : parseF c with _ | s
      · simp [get_request_float, errKindOfF, hc, hs]
      · rcases he : parseF d with _ | e
        · simp [get_request_float, errKindOfF, hc, hs, he]
        · rcases s with _ | sq
          · exact absurd hs (hfin c)
          rcases e with _ | eq2
          · exact absurd he (hfin d)
          by_cases hneg : pyLtF (.fin sq) (.fin 0) || pyLtF (.fin eq2) (.fin 0)
          · simp [get_request_float, errKindOfF, hc, hs, he, hneg]
          · by_cases hfs : env.fsExists b
            · rcases hp : env.probeMs b with _ | durMs
              · simp [get_request_float, errKindOfF, hc, hs, he, hneg, hfs, hp]
              · by_cases hse : eq2 ≤ sq
                · have h6 : pyGeF (.fin sq) (.fin eq2) = true := by
                    simp [pyGeF]
                    exact hse
                  have h7 : ¬ pyLtF (.fin sq) (.fin eq2) = true := by
                    simp [pyLtF]
                    exact hse
                  simp [get_request_float, errKindOfF, hc, hs, he, hneg, hfs, hp,
                    h6, h7]
                · have hlt : sq < eq2 := lt_of_not_le hse
                  have h6 : pyGeF (.fin sq) (.fin eq2) = false := by
                    simp [pyGeF]
                    exact hlt
                  have h7 : pyLtF (.fin sq) (.fin eq2) = true := by
                    simp [pyLtF]
                    exact hlt
                  by_cases hed : msToSec durMs < eq2
                  · have h8 : pyGtF (.fin eq2) (.fin (msToSec durMs)) = true := by
                      simp [pyGtF]
                      exact hed
                    have h9 : ¬ pyLeF (.fin eq2) (.fin (msToSec durMs)) = true := by
                      simp [pyLeF]
                      exact hed
                    simp [get_request_float, errKindOfF, hc, hs, he, hneg, hfs, hp,
                      h6, h7, h8, h9]
                  · have hle : eq2 ≤ msToSec durMs := le_of_not_lt hed
                    have h8 : pyGtF (.fin eq2) (.fin (msToSec durMs)) = false := by
                      simp [pyGtF]
                      exact hle
                    have h9 : pyLeF (.fin eq2) (.fin (msToSec durMs)) = true := by
                      simp [pyLeF]
                      exact hle
                    rcases hsl : env.sliceBytes b (pyInt (timesThousand sq))
                        (pyInt (timesThousand eq2)) with _ | bytes
                    · simp [get_request_float, errKindOfF, pyIntMsF, hc, hs, he,
                        hneg, hfs, hp, h6, h7, h8, h9, hsl]
                    · simp [get_request_float, errKindOfF, pyIntMsF, hc, hs, he,
                        hneg, hfs, hp, h6, h7, h8, h9, hsl]
            · simp [get_request_float, errKindOfF, hc, hs, he, hneg, hfs]
    · simp [get_request_float, errKindOfF, hc]
  · -- five or more tokens
    simp only [handle_get_float, errKindOfF, specValidateF]
    rw [if_pos (by simp only [List.length_cons]; omega)]

theorem get_request_float_nan (env : Env) (parseF : String → Option PyFloat)
    (filename startTok endTok : String) (s e : PyFloat) (durMs : Nat)
    (hc : catalogHas env.metadata filename = true)
    (hs : parseF startTok = some s) (he : parseF endTok = some e)
    (hnan : s = PyFloat.nan ∨ e = PyFloat.nan)
    (hneg1 : pyLtF s (.fin 0) = false) (hneg2 : pyLtF e (.fin 0) = false)
    (hfs : env.fsExists filename = true)
    (hp : env.probeMs filename = some durMs)
    (hex : pyGtF e (.fin (msToSec durMs)) = false) :
    get_request_float env parseF filename startTok endTok = .extractFail err_processing := by
  rcases hnan with rfl | rfl
  · rcases e with _ | eq2
    · simp [get_request_float, pyGeF, pyIntMsF, hc, hs, he, hneg1, hneg2, hfs, hp, hex]
    · simp [get_request_float, pyGeF, pyIntMsF, hc, hs, he, hneg1, hneg2, hfs, hp, hex]
  · rcases s with _ | sq
    · simp [get_request_float, pyGeF, pyIntMsF, hc, hs, he, hneg1, hneg2, hfs, hp, hex]
    · simp [get_request_float, pyGeF, pyIntMsF, hc, hs, he, hneg1, hneg2, hfs, hp, hex]

/-- C4 (amended): the checks run in the code's order, each check being
the code's own predicate; on NaN-free time values these coincide with
the specified checks and the first failing check determines the
rejection category, exactly as claimed.  But a NaN time token — which
`float()` accepts — passes every comparison-based check (all
comparisons with NaN are false), so check 6 never fires for it; the
failure surfaces only at the `int()` conversion inside the extraction
block and is reported with the generic processing-error message, not
the first-failing-check message. -/
theorem C4_first_failing_check :
    (∀ (env : Env) (parseF : String → Option PyFloat) (parts : List String),
      (∀ t, parseF t ≠ some PyFloat.nan) →
      errKindOfF (handle_get_float env parseF parts) = specValidateF env parseF parts) ∧
    (∀ (env : Env) (parseF : String → Option PyFloat)
        (filename startTok endTok : String) (s e : PyFloat) (durMs : Nat),
      catalogHas env.metadata filename = true →
      parseF startTok = some s → parseF endTok = some e →
      (s = PyFloat.nan ∨ e = PyFloat.nan) →
      pyLtF s (.fin 0) = false → pyLtF e (.fin 0) = false →
      env.fsExists filename = true → env.probeMs filename = some durMs →
      pyGtF e (.fin (msToSec durMs)) = false →
      get_request_float env parseF filename startTok endTok =
        .extractFail err_processing) :=
  ⟨fun env parseF parts hfin => handle_get_float_order env parseF parts hfin,
   fun env parseF filename startTok endTok s e durMs hc hs he hnan h1 h2 hfs hp hex =>
     get_request_float_nan env parseF filename startTok endTok s e durMs hc hs he
       hnan h1 h2 hfs hp hex⟩

/-- A parse table standing in for `float()` with a NaN start token. -/
def cparseF (t : String) : Option PyFloat :=
  if t = "nan" then some PyFloat.nan
  else if t = "5" then some (PyFloat.fin (mkRat 5 1))
  else if t = "0" then some (PyFloat.fin (mkRat 0 1))
  else none

/-- C4 (counterexample): for `GET a.wav nan 5` against a 10000 ms
file, the first failing check of the spec-ordered pipeline is check 6
(`start < end` is false for NaN), so the claim demands the
invalid-range message; but the code's `nan >= 5` at line 199 is also
false, every later comparison passes, and `int(nan * 1000)` raises
inside the extraction block, so the client gets the processing-error
message instead. -/
theorem C4_counterexample :
    specValidateF cenv1 cparseF (["GET", "a.wav", "nan", "5"]) =
      some ErrKind.invalidRange ∧
    handle_get_float cenv1 cparseF (["GET", "a.wav", "nan", "5"]) =
      FOutcome.extractFail err_processing ∧
    errKindOfF (handle_get_float cenv1 cparseF (["GET", "a.wav", "nan", "5"])) ≠
      some ErrKind.invalidRange := by
  refine ⟨by decide, by decide, by decide⟩

/-- A NaN-free parse for the witness: the finite values of the shared
table. -/
def cparseFin (t : String) : Option PyFloat := (cNumTable.lookup t).map PyFloat.fin

theorem C4_witness :
    errKindOfF (handle_get_float cenv1 cparseFin (["GET", "b.wav", "0", "1"])) =
      specValidateF cenv1 cparseFin (["GET", "b.wav", "0", "1"]) ∧
    get_request_float cenv1 cparseF ("a.wav") ("nan") ("5") =
      FOutcome.extractFail err_processing :=
  ⟨C4_first_failing_check.1 cenv1 cparseFin (["GET", "b.wav", "0", "1"])
     (fun t h => by
       rcases hl : cNumTable.lookup t with _ | q
       · rw [cparseFin, hl] at h
         exact Option.noConfusion h
       · rw [cparseFin, hl] at h
         exact PyFloat.noConfusion (Option.some.inj h)),
   C4_first_failing_check.2 cenv1 cparseF ("a.wav") ("nan") ("5") PyFloat.nan
     (PyFloat.fin (mkRat 5 1)) 10000 (by decide) (by decide) (by decide)
     (Or.inl rfl) (by decide) (by decide) (by decide) rfl (by decide)⟩

theorem encodeResponse_framed (ok : Bool) (payload : List Nat) :
    (encodeResponse (.framed ok payload)).length = 5 + payload.length ∧
    (payload.length < 4294967296 →
      decodeBE4 (((encodeResponse (.framed ok payload)).drop 1).take 4) = payload.length) ∧
    ((encodeResponse (.framed ok payload)).drop 5) = payload := by
  refine ⟨?_, ?_, ?_⟩
  · simp only [encodeResponse, beBytes4, List.length_cons, List.length_append,
      List.length_nil]
    omega
  · intro h
    simp only [encodeResponse, beBytes4, List.drop_succ_cons, List.drop_zero,
      List.cons_append, List.nil_append, List.take_succ_cons, List.take_zero,
      decodeBE4]
    omega
  · simp only [encodeResponse, beBytes4, List.drop_succ_cons, List.drop_zero,
      List.cons_append, List.nil_append]

/-- C5: every reply to a `GET` command — success or failure — is a
framed response: one status byte (49 = `'1'` on success, 48 = `'0'` on
failure), then a 4-byte big-endian length that decodes back to the
payload's byte count, then exactly the payload. -/
theorem C5_get_replies_framed (env : Env) (raw p0 : String) (ps : List String)
    (hparts : pySplit (pyStrip raw) = p0 :: ps) (hverb : pyUpper p0 = "GET") :
    ∃ ok payload, handle_command env raw = .framed ok payload ∧
      encodeResponse (.framed ok payload) =
        (if ok then 49 else 48) :: (beBytes4 payload.length ++ payload) ∧
      (encodeResponse (.framed ok payload)).length = 5 + payload.length ∧
      (payload.length < 4294967296 →
        decodeBE4 (((encodeResponse (.framed ok payload)).drop 1).take 4) = payload.length) ∧
      ((encodeResponse (.framed ok payload)).drop 5) = payload := by
  rw [handle_command_get env raw p0 ps hparts hverb]
  rcases hout : handle_get env (p0 :: ps) with ⟨s, e, payload⟩ | ⟨s, e, msg⟩ | ⟨k, msg⟩
  · exact ⟨true, payload, rfl, rfl, encodeResponse_framed true payload⟩
  · exact ⟨false, utf8 msg, rfl, rfl, encodeResponse_framed false (utf8 msg)⟩
  · exact ⟨false, utf8 msg, rfl, rfl, encodeResponse_framed false (utf8 msg)⟩

theorem C5_witness :
    ∃ ok payload, handle_command cenv1 ("GET a.wav 1 2") = .framed ok payload ∧
      encodeResponse (.framed ok payload) =
        (if ok then 49 else 48) :: (beBytes4 payload.length ++ payload) ∧
      (encodeResponse (.framed ok payload)).length = 5 + payload.length ∧
      (payload.length < 4294967296 →
        decodeBE4 (((encodeResponse (.framed ok payload)).drop 1).take 4) = payload.length) ∧
      ((encodeResponse (.framed ok payload)).drop 5) = payload :=
  C5_get_replies_framed cenv1 ("GET a.wav 1 2") ("GET") ["a.wav", "1", "2"]
    (by decide) (by decide)

/-- C6: a `GET` with exactly three arguments whose filename is not in
the catalog fails with the not-found message, whatever the two time
tokens are (the filename check precedes any look at them), and the
reply is the framed failure carrying that text. -/
theorem C6_not_in_catalog (env : Env) (filename startTok endTok : String)
    (h : catalogHas env.metadata filename = false) :
    get_request env filename startTok endTok = .err .fileNotFound (err_not_found filename) ∧
    responseOfGet (get_request env filename startTok endTok) =
      .framed false (utf8 (err_not_found filename)) := by
  have hmain : get_request env filename startTok endTok =
      .err .fileNotFound (err_not_found filename) := by
    simp only [get_request]
    rw [if_pos (by simp [h])]
  exact ⟨hmain, by rw [hmain]; rfl⟩

theorem C6_witness :
    get_request cenv1 ("b.wav") ("xx") ("-1") =
      .err .fileNotFound (err_not_found ("b.wav")) ∧
    responseOfGet (get_request cenv1 ("b.wav") ("xx") ("-1")) =
      .framed false (utf8 (err_not_found ("b.wav"))) :=
  C6_not_in_catalog cenv1 ("b.wav") ("xx") ("-1") (by decide)

/-- C7: whenever a `GET` request reaches the extraction step, the
millisecond bounds it passes are the floor-truncations of the parsed
seconds times 1000 (Python `int()` truncates toward zero, and the
values are non-negative here, so this is exactly `floor`). -/
theorem C7_truncation (env : Env) (filename startTok endTok : String)
    (s e : ℚ) (startMs endMs : Int)
    (hs : env.parseNum startTok = some s) (he : env.parseNum endTok = some e)
    (hargs : extractionArgs (get_request env filename startTok endTok) =
      some (startMs, endMs)) :
    startMs = ⌊s * 1000⌋ ∧ endMs = ⌊e * 1000⌋ := by
  obtain ⟨s', e', d, hs', he', hp, hneg, hse, hed, hst, hen⟩ :=
    get_request_extraction env filename startTok endTok startMs endMs hargs
  rw [hs] at hs'
  rw [he] at he'
  obtain rfl : s = s' := Option.some.inj hs'
  obtain rfl : e = e' := Option.some.inj he'
  push_neg at hneg
  constructor
  · rw [hst, timesThousand_eq,
      pyInt_of_nonneg (mul_nonneg hneg.1 (by norm_num))]
  · rw [hen, timesThousand_eq,
      pyInt_of_nonneg (mul_nonneg hneg.2 (by norm_num))]

theorem C7_witness :
    (1000 : ℤ) = ⌊(mkRat 1 1 : ℚ) * 1000⌋ ∧ (2000 : ℤ) = ⌊(mkRat 2 1 : ℚ) * 1000⌋ :=
  C7_truncation cenv1 ("a.wav") ("1") ("2") (mkRat 1 1) (mkRat 2 1) 1000 2000
    (by decide) (by decide) (by decide)

theorem load_audio_metadata_true (files : List String) (probeMs : String → Option Nat) :
    load_audio_metadata true files probeMs =
      files.filterMap (fun f =>
        if hasSupportedExt f then (probeMs f).map (mkEntry f) else none) := by
  simp [load_audio_metadata]

theorem load_audio_metadata_skip (pre post : List String) (f : String)
    (probeMs : String → Option Nat) (hfail : probeMs f = none) :
    load_audio_metadata true (pre ++ f :: post) probeMs =
      load_audio_metadata true (pre ++ post) probeMs := by
  have hgf : (if hasSupportedExt f then (probeMs f).map (mkEntry f) else none) = none := by
    by_cases hs : hasSupportedExt f
    · simp [hs, hfail]
    · simp [hs]
  rw [load_audio_metadata_true, load_audio_metadata_true, List.filterMap_append,
    List.filterMap_append]
  congr 1
  simp [List.filterMap_cons, hgf]

theorem load_audio_metadata_length (files : List String) (probeMs : String → Option Nat) :
    (load_audio_metadata true files probeMs).length =
      (files.filter (fun f => hasSupportedExt f && (probeMs f).isSome)).length := by
  rw [load_audio_metadata_true]
  induction files with
  | nil => rfl
  | cons f fs ih =>
    by_cases hs : hasSupportedExt f
    · rcases hd : probeMs f with _ | d
      · simp [List.filterMap_cons, List.filter_cons, hs, hd, ih]
      · simp [List.filterMap_cons, List.filter_cons, hs, hd, ih]
    · simp [List.filterMap_cons, List.filter_cons, hs, ih]

theorem load_audio_metadata_mem (files : List String) (probeMs : String → Option Nat)
    (f : String) (d : Nat) (hmem : f ∈ files) (hsupp : hasSupportedExt f = true)
    (hprobe : probeMs f = some d) :
    mkEntry f d ∈ load_audio_metadata true files probeMs := by
  rw [load_audio_metadata_true]
  exact List.mem_filterMap.mpr ⟨f, hmem, by simp [hsupp, hprobe]⟩

/-- C8: scanning a missing directory creates it and yields the empty
catalog; a probe failure skips exactly that file and never aborts the
scan; and the catalog holds one entry per listed supported file whose
probe succeeds. -/
theorem C8_catalog_build :
    (∀ (files : List String) (probeMs : String → Option Nat),
      load_audio_metadata false files probeMs = []) ∧
    (∀ (pre post : List String) (f : String) (probeMs : String → Option Nat),
      probeMs f = none →
      load_audio_metadata true (pre ++ f :: post) probeMs =
        load_audio_metadata true (pre ++ post) probeMs) ∧
    (∀ (files : List String) (probeMs : String → Option Nat),
      (load_audio_metadata true files probeMs).length =
        (files.filter (fun f => hasSupportedExt f && (probeMs f).isSome)).length) ∧
    (∀ (files : List String) (probeMs : String → Option Nat) (f : String) (d : Nat),
      f ∈ files → hasSupportedExt f = true → probeMs f = some d →
      mkEntry f d ∈ load_audio_metadata true files probeMs) :=
  ⟨fun _ _ => rfl,
   fun pre post f probeMs h => load_audio_metadata_skip pre post f probeMs h,
   fun files probeMs => load_audio_metadata_length files probeMs,
   fun files probeMs f d h1 h2 h3 => load_audio_metadata_mem files probeMs f d h1 h2 h3⟩

/-- A probe that always fails, for the skip witness. -/
def cprobeFail (_f : String) : Option Nat := none

theorem C8_witness :
    load_audio_metadata false (["a.wav"]) cprobe9 = [] ∧
    load_audio_metadata true (("x.wav") :: []) cprobeFail =
      load_audio_metadata true [] cprobeFail ∧
    (load_audio_metadata true (["a.wav"]) cprobe9).length =
      ((["a.wav"]).filter (fun f => hasSupportedExt f && (cprobe9 f).isSome)).length ∧
    mkEntry ("a.wav") 10556 ∈ load_audio_metadata true (["a.wav"]) cprobe9 :=
  ⟨C8_catalog_build.1 (["a.wav"]) cprobe9,
   C8_catalog_build.2.1 [] [] ("x.wav") cprobeFail rfl,
   C8_catalog_build.2.2.1 (["a.wav"]) cprobe9,
   C8_catalog_build.2.2.2 (["a.wav"]) cprobe9 ("a.wav") 10556 (by decide) (by decide) rfl⟩

theorem catalogHas_map_filename (m : List CatalogEntry) (filename : String) :
    catalogHas m filename =
      (m.map (fun itm => itm.filename)).any (fun n => n = filename) := by
  induction m with
  | nil => rfl
  | cons itm rest ih =>
    simp only [catalogHas, List.any_cons, List.map_cons] at ih ⊢
    rw [ih]

theorem get_request_filenames_only (env env' : Env)
    (hm : env.metadata.map (fun itm => itm.filename) =
      env'.metadata.map (fun itm => itm.filename))
    (hp : env.parseNum = env'.parseNum) (hf : env.fsExists = env'.fsExists)
    (hpr : env.probeMs = env'.probeMs) (hsl : env.sliceBytes = env'.sliceBytes) :
    ∀ filename startTok endTok,
      get_request env filename startTok endTok = get_request env' filename startTok endTok := by
  intro filename startTok endTok
  have hcat : catalogHas env.metadata filename = catalogHas env'.metadata filename := by
    rw [catalogHas_map_filename, catalogHas_map_filename, hm]
  simp only [get_request, hcat, hp, hf, hpr, hsl]

/-- A copy of `cenv9` whose catalog durations were altered (filenames
kept); the `GET` handler cannot tell the difference, because it
re-probes rather than consulting the stored duration. -/
def cenv9alt : Env :=
  { metadata := [{ filename := "a.wav", duration_sec := mkRat 0 1, format := "wav" }]
    parseNum := fun t => cNumTable.lookup t
    fsExists := fun _ => true
    probeMs := cprobe9
    sliceBytes := fun _ _ _ => some [7, 8]
    dumps := fun _ => "[]" }

/-- C9: the catalog (what `LIST` serialises) stores the probed duration
rounded to 2 decimals, while `GET` validation re-probes the file and
compares against the unrounded duration: the `GET` outcome is
insensitive to the stored durations, and a file of 10556 ms is listed
as 10.56 s yet a `GET` ending at that very 10.56 s is rejected as
exceeding the (10.556 s) duration. -/
theorem C9_rounded_list_vs_fresh_probe :
    (∀ (files : List String) (probeMs : String → Option Nat) (f : String) (d : Nat),
      f ∈ files → hasSupportedExt f = true → probeMs f = some d →
      ({ filename := f, duration_sec := round2MsToSec d, format := extNoDot f } :
        CatalogEntry) ∈ load_audio_metadata true files probeMs) ∧
    (∀ env env' : Env,
      env.metadata.map (fun itm => itm.filename) =
        env'.metadata.map (fun itm => itm.filename) →
      env.parseNum = env'.parseNum → env.fsExists = env'.fsExists →
      env.probeMs = env'.probeMs → env.sliceBytes = env'.sliceBytes →
      ∀ filename startTok endTok,
        get_request env filename startTok endTok =
          get_request env' filename startTok endTok) ∧
    (round2MsToSec 10556 ≠ msToSec 10556 ∧
      (load_audio_metadata true (["a.wav"]) cprobe9).map (fun itm => itm.duration_sec) =
        [round2MsToSec 10556] ∧
      handle_command cenv9 ("LIST") = .plain (cenv9.dumps cenv9.metadata) ∧
      get_request cenv9 ("a.wav") ("0") ("10.56") =
        .err .rangeExceeds (err_range_exceeds (mkRat 1056 100) (msToSec 10556))) := by
  refine ⟨?_, ?_, ?_, ?_, ?_, ?_⟩
  · intro files probeMs f d h1 h2 h3
    exact load_audio_metadata_mem files probeMs f d h1 h2 h3
  · intro env env' hm hp hf hpr hsl
    exact get_request_filenames_only env env' hm hp hf hpr hsl
  · decide
  · decide
  · decide
  · decide

theorem C9_witness :
    (({ filename := "a.wav", duration_sec := round2MsToSec 10556,
        format := extNoDot ("a.wav") } : CatalogEntry) ∈
      load_audio_metadata true (["a.wav"]) cprobe9) ∧
    get_request cenv9 ("a.wav") ("0") ("10.56") =
      get_request cenv9alt ("a.wav") ("0") ("10.56") :=
  ⟨C9_rounded_list_vs_fresh_probe.1 (["a.wav"]) cprobe9 ("a.wav") 10556
     (by decide) (by decide) rfl,
   C9_rounded_list_vs_fresh_probe.2.1 cenv9 cenv9alt (by decide) rfl rfl rfl rfl
     ("a.wav") ("0") ("10.56")⟩
